import Mathlib

/-!
Shallow embedding of the vacation-rental backend core:
credential verification and token issuance (routes/login.js),
the JWT authorization middleware (middleware/auth.js), and the
resource routes (routes/users.js, routes/reviews.js, routes/bookings,
routes/properties.js).  JavaScript truthiness on request-body fields is
modelled explicitly; machine state (the Prisma store) is passed as an
explicit value; fallible store operations return Except.
-/

namespace BedBnb

/-! ### JavaScript truthiness

Request-body fields are JS values that may be absent (undefined) or
present; `!x` in the source is falsy for undefined, the empty string and
the number 0.  String-valued fields are `Option String`, number-valued
fields `Option ℚ` (JS has a single number type). -/

def truthyS : Option String → Bool
  | none => false
  | some s => !(s == "")

def truthyQ : Option ℚ → Bool
  | none => false
  | some q => !(q == 0)

/-! ### Data model (prisma/schema.prisma) -/

structure User where
  id : String
  username : String
  name : String
  email : String
  phoneNumber : String
  profilePicture : Option String
  password : String
deriving DecidableEq

structure Host where
  id : String
  username : String
  name : String
  email : String
  phoneNumber : String
  profilePicture : Option String
  aboutMe : Option String
deriving DecidableEq

structure Property where
  id : String
  title : String
  description : String
  location : String
  pricePerNight : ℚ
  bedroomCount : ℚ
  bathroomCount : ℚ
  maxGuestCount : ℚ
  rating : ℚ
  hostId : String
deriving DecidableEq

/-- `new Date(s)`: an opaque date value built from the request string. -/
structure JsDate where
  raw : String
deriving DecidableEq

structure Booking where
  id : String
  startDate : JsDate
  endDate : JsDate
  propertyId : String
  userId : String
deriving DecidableEq

structure Review where
  id : String
  rating : ℚ
  comment : Option String
  propertyId : String
  userId : String
deriving DecidableEq

/-- The Prisma store: one table per model used by the verified routes. -/
structure Db where
  users : List User
  hosts : List Host
  properties : List Property
  bookings : List Booking
  reviews : List Review
deriving DecidableEq

/-! ### Store operations (Prisma client calls used by the routes) -/

inductive PrismaErr where
  | P2025
deriving DecidableEq

def findUserById (db : Db) (id : String) : Option User :=
  db.users.find? (fun u => u.id == id)

def findUserByUsername (db : Db) (username : String) : Option User :=
  db.users.find? (fun u => u.username == username)

def findHostById (db : Db) (id : String) : Option Host :=
  db.hosts.find? (fun h => h.id == id)

def findPropertyById (db : Db) (id : String) : Option Property :=
  db.properties.find? (fun p => p.id == id)

def findBookingById (db : Db) (id : String) : Option Booking :=
  db.bookings.find? (fun b => b.id == id)

def findReviewById (db : Db) (id : String) : Option Review :=
  db.reviews.find? (fun r => r.id == id)

/-- `prisma.user.update({where:{id}, data})`: raises P2025 when no row
matches at mutation time. -/
def userUpdate (db : Db) (id : String) (f : User → User) :
    Except PrismaErr (User × Db) :=
  match findUserById db id with
  | none => .error .P2025
  | some u =>
      .ok (f u, { db with users := db.users.map (fun v => if v.id == id then f v else v) })

def userDelete (db : Db) (id : String) : Except PrismaErr (User × Db) :=
  match findUserById db id with
  | none => .error .P2025
  | some u => .ok (u, { db with users := db.users.filter (fun v => !(v.id == id)) })

def reviewUpdate (db : Db) (id : String) (f : Review → Review) :
    Except PrismaErr (Review × Db) :=
  match findReviewById db id with
  | none => .error .P2025
  | some r =>
      .ok (f r, { db with reviews := db.reviews.map (fun v => if v.id == id then f v else v) })

def reviewDelete (db : Db) (id : String) : Except PrismaErr (Review × Db) :=
  match findReviewById db id with
  | none => .error .P2025
  | some r => .ok (r, { db with reviews := db.reviews.filter (fun v => !(v.id == id)) })

def bookingUpdate (db : Db) (id : String) (f : Booking → Booking) :
    Except PrismaErr (Booking × Db) :=
  match findBookingById db id with
  | none => .error .P2025
  | some b =>
      .ok (f b, { db with bookings := db.bookings.map (fun v => if v.id == id then f v else v) })

def bookingDelete (db : Db) (id : String) : Except PrismaErr (Booking × Db) :=
  match findBookingById db id with
  | none => .error .P2025
  | some b => .ok (b, { db with bookings := db.bookings.filter (fun v => !(v.id == id)) })

def propertyUpdate (db : Db) (id : String) (f : Property → Property) :
    Except PrismaErr (Property × Db) :=
  match findPropertyById db id with
  | none => .error .P2025
  | some p =>
      .ok (f p, { db with properties := db.properties.map (fun v => if v.id == id then f v else v) })

def propertyDelete (db : Db) (id : String) : Except PrismaErr (Property × Db) :=
  match findPropertyById db id with
  | none => .error .P2025
  | some p => .ok (p, { db with properties := db.properties.filter (fun v => !(v.id == id)) })

/-! ### Token service (jsonwebtoken: jwt.sign / jwt.verify) -/

/-- A JWT as it travels in the Authorization header: either a token signed
with some secret, carrying the payload `{userId, username}` that
routes/login.js signs, together with its iat/exp timestamps, or a
malformed string that does not parse as a JWT at all. -/
inductive Token where
  | signed (userId : String) (username : String) (iat : Nat) (exp : Nat) (secret : String)
  | malformed
deriving DecidableEq

/-- The decoded payload attached to `req.user`.  A JS property read on an
absent field yields undefined, so every field is optional: tokens issued
by routes/login.js set `userId`/`username` and leave `id` absent. -/
structure ReqUser where
  id : Option String
  userId : Option String
  username : Option String
deriving DecidableEq

/-- Seven hours in seconds: `expiresIn: "7h"`. -/
def sevenHours : Nat := 25200

/-- Modelled from the spec: the Token Service Issue operation (the
jsonwebtoken library is an external collaborator, not under src/).
`jwt.sign({userId: user.id, username: user.username}, secret,
{expiresIn: "7h"})` produces a signed token with `exp = iat + 7h`. -/
def jwtSign (userId username : String) (secret : String) (now : Nat) : Token :=
  .signed userId username now (now + sevenHours) secret

/-- Modelled from the spec: the Token Service Validate operation
(jsonwebtoken's `jwt.verify`).  It accepts a token iff it parses, its
signature verifies against the supplied secret, and the current time is
strictly before `exp`; on success it returns the decoded payload. -/
def jwtVerify (t : Token) (secret : String) (now : Nat) : Option ReqUser :=
  match t with
  | .malformed => none
  | .signed uid uname _ exp s =>
      if s == secret && decide (now < exp) then
        some { id := none, userId := some uid, username := some uname }
      else none

/-! ### Authorization middleware (middleware/auth.js) -/

/-- JS `String.prototype.split(" ")` on the character list. -/
def splitOnSpace : List Char → List (List Char)
  | [] => [[]]
  | c :: cs =>
      match splitOnSpace cs with
      | [] => [[]]
      | w :: ws => if c == ' ' then [] :: w :: ws else (c :: w) :: ws

def jsSplitSpace (s : String) : List String :=
  (splitOnSpace s.data).map (fun l => String.mk l)

/-- `req.headers["authorization"]?.split(" ")[1]`. -/
def extractBearer (authHeader : Option String) : Option String :=
  authHeader.bind (fun h => (jsSplitSpace h).get? 1)

inductive AuthOutcome where
  | rejected (status : Nat) (message : String)
  | authorized (user : ReqUser)
deriving DecidableEq

/-- The body of middleware/auth.js `verifyToken` applied to the already
extracted token: `if (!token)` rejects an undefined or empty token with
the MissingCredential message, otherwise `jwt.verify` decides between
the InvalidToken rejection and authorization. -/
def verifyTokenAux (decodeWire : String → Token) (secret : String) (now : Nat) :
    Option String → AuthOutcome
  | none => .rejected 401 "No token provided, authorization denied"
  | some t =>
      if t == "" then .rejected 401 "No token provided, authorization denied"
      else
        match jwtVerify (decodeWire t) secret now with
        | none => .rejected 401 "Invalid or expired token"
        | some u => .authorized u

/-- middleware/auth.js `verifyToken`: extract the bearer token from the
Authorization header, then decide; `decodeWire` is the ambient JWS parse
from wire strings to tokens. -/
def verifyToken (decodeWire : String → Token) (secret : String) (now : Nat)
    (authHeader : Option String) : AuthOutcome :=
  verifyTokenAux decodeWire secret now (extractBearer authHeader)

/-! ### Route handlers

Each handler is a pure function of the request pieces and the store
snapshot(s) it reads.  `RouteOut` records the HTTP status, the JSON body,
the store after the handler's own mutations, and `ops`, the number of
store calls the handler issued (used to state "no store access occurs"
properties). -/

/-- The user object with the password field destructured away:
`const {password: _, ...userWithoutPassword} = user`. -/
structure UserView where
  id : String
  username : String
  name : String
  email : String
  phoneNumber : String
  profilePicture : Option String
deriving DecidableEq

def User.withoutPassword (u : User) : UserView :=
  { id := u.id, username := u.username, name := u.name, email := u.email,
    phoneNumber := u.phoneNumber, profilePicture := u.profilePicture }

inductive Body where
  | message (s : String)
  | user (v : UserView)
  | review (r : Review)
  | booking (b : Booking)
  | property (p : Property)
  | token (t : Token)
deriving DecidableEq

structure RouteOut where
  status : Nat
  body : Body
  db : Db
  ops : Nat
deriving DecidableEq

/-- POST /login (routes/login.js): 400 on falsy username/password, look
the user up by username, 401 "Invalid credentials" when absent or when
the plain-text passwords differ, else 200 with a 7h token. -/
def loginPost (secret : String) (now : Nat)
    (username password : Option String) (db : Db) : RouteOut :=
  if !truthyS username || !truthyS password then
    ⟨400, .message "Username and password are required", db, 0⟩
  else
    match findUserByUsername db (username.getD "") with
    | none => ⟨401, .message "Invalid credentials", db, 1⟩
    | some user =>
        if !(password.getD "" == user.password) then
          ⟨401, .message "Invalid credentials", db, 1⟩
        else
          ⟨200, .token (jwtSign user.id user.username secret now), db, 1⟩

/-! #### Users (routes/users.js) -/

structure UserPutBody where
  username : Option String
  email : Option String
  password : Option String
deriving DecidableEq

/-- The `updatedData` object of PUT /users/:id: each field is copied onto
the row only when present and truthy in the payload. -/
def userPutMerge (b : UserPutBody) (u : User) : User :=
  { u with
    username := if truthyS b.username then b.username.getD "" else u.username,
    email := if truthyS b.email then b.email.getD "" else u.email,
    password := if truthyS b.password then b.password.getD "" else u.password }

/-- PUT /users/:id, with the existence check reading snapshot `db1` and
the update mutating snapshot `db2` (the two store calls are sequential
and non-transactional, so a concurrent writer may change the store in
between; the sequential case is `db1 = db2`, see `usersPut`). -/
def usersPutCore (idp : String) (b : UserPutBody) (requser : ReqUser)
    (db1 db2 : Db) : RouteOut :=
  if !truthyS b.username && !truthyS b.email && !truthyS b.password then
    ⟨400, .message "At least one field is required (username, email, or password)", db1, 0⟩
  else if !(requser.id == some idp) then
    ⟨403, .message "You can only update your own account", db1, 0⟩
  else
    match findUserById db1 idp with
    | none => ⟨404, .message "User not found", db1, 1⟩
    | some _ =>
        match userUpdate db2 idp (userPutMerge b) with
        | .ok (u, db) => ⟨200, .user u.withoutPassword, db, 2⟩
        | .error _ => ⟨500, .message "Server error", db2, 2⟩

def usersPut (idp : String) (b : UserPutBody) (requser : ReqUser) (db : Db) : RouteOut :=
  usersPutCore idp b requser db db

/-- DELETE /users/:id: ownership check, then delete; P2025 at mutation
time is mapped to 404. -/
def usersDelete (idp : String) (requser : ReqUser) (db : Db) : RouteOut :=
  if !(requser.id == some idp) then
    ⟨403, .message "You can only delete your own account", db, 0⟩
  else
    match userDelete db idp with
    | .ok (u, db2) =>
        ⟨200, .message ("User " ++ u.username ++ " deleted successfully"), db2, 1⟩
    | .error .P2025 => ⟨404, .message "User not found", db, 1⟩

/-! #### Reviews (routes/reviews.js) -/

structure ReviewBody where
  rating : Option ℚ
  comment : Option String
  userId : Option String
  propertyId : Option String
deriving DecidableEq

/-- POST /reviews: validation, then user-existence, then
property-existence, then create (`freshId` is the uuid the store
generates for the new row). -/
def reviewsPost (freshId : String) (b : ReviewBody) (db : Db) : RouteOut :=
  if !truthyQ b.rating || !truthyS b.comment || !truthyS b.userId || !truthyS b.propertyId then
    ⟨400, .message "Rating, comment, user ID, and property ID are required", db, 0⟩
  else
    match findUserById db (b.userId.getD "") with
    | none => ⟨404, .message "User not found", db, 1⟩
    | some _ =>
        match findPropertyById db (b.propertyId.getD "") with
        | none => ⟨404, .message "Property not found", db, 2⟩
        | some _ =>
            let newReview : Review :=
              { id := freshId, rating := b.rating.getD 0, comment := b.comment,
                propertyId := b.propertyId.getD "", userId := b.userId.getD "" }
            ⟨201, .review newReview, { db with reviews := db.reviews ++ [newReview] }, 3⟩

/-- The `updatedData` object of PUT /reviews/:id. -/
def reviewPutMerge (b : ReviewBody) (r : Review) : Review :=
  { r with
    rating := if truthyQ b.rating then b.rating.getD 0 else r.rating,
    comment := if truthyS b.comment then b.comment else r.comment,
    userId := if truthyS b.userId then b.userId.getD "" else r.userId,
    propertyId := if truthyS b.propertyId then b.propertyId.getD "" else r.propertyId }

/-- PUT /reviews/:id over the two sequential store snapshots; note the
catch block has no P2025 branch, so a mutation-time missing row is a 500. -/
def reviewsPutCore (idp : String) (b : ReviewBody) (db1 db2 : Db) : RouteOut :=
  if !truthyQ b.rating && !truthyS b.comment && !truthyS b.userId && !truthyS b.propertyId then
    ⟨400, .message "At least one field (rating, comment, userId, propertyId) is required", db1, 0⟩
  else
    match findReviewById db1 idp with
    | none => ⟨404, .message "Review not found", db1, 1⟩
    | some _ =>
        match reviewUpdate db2 idp (reviewPutMerge b) with
        | .ok (r, db) => ⟨200, .review r, db, 2⟩
        | .error _ => ⟨500, .message "Server error", db2, 2⟩

def reviewsPut (idp : String) (b : ReviewBody) (db : Db) : RouteOut :=
  reviewsPutCore idp b db db

/-- DELETE /reviews/:id: P2025 at mutation time is mapped to 404. -/
def reviewsDelete (idp : String) (db : Db) : RouteOut :=
  match reviewDelete db idp with
  | .ok (r, db2) =>
      ⟨200, .message ("Review with ID " ++ r.id ++ " deleted successfully"), db2, 1⟩
  | .error .P2025 => ⟨404, .message "Review not found", db, 1⟩

/-! #### Bookings (the bookings router bundled in routes/reviews.js) -/

structure BookingBody where
  startDate : Option String
  endDate : Option String
  userId : Option String
  propertyId : Option String
deriving DecidableEq

def bookingsPost (freshId : String) (b : BookingBody) (db : Db) : RouteOut :=
  if !truthyS b.startDate || !truthyS b.endDate || !truthyS b.userId || !truthyS b.propertyId then
    ⟨400, .message "Start date, end date, user ID, and property ID are required", db, 0⟩
  else
    match findUserById db (b.userId.getD "") with
    | none => ⟨404, .message "User not found", db, 1⟩
    | some _ =>
        match findPropertyById db (b.propertyId.getD "") with
        | none => ⟨404, .message "Property not found", db, 2⟩
        | some _ =>
            let newBooking : Booking :=
              { id := freshId, startDate := ⟨b.startDate.getD ""⟩,
                endDate := ⟨b.endDate.getD ""⟩,
                propertyId := b.propertyId.getD "", userId := b.userId.getD "" }
            ⟨201, .booking newBooking, { db with bookings := db.bookings ++ [newBooking] }, 3⟩

def bookingPutMerge (b : BookingBody) (k : Booking) : Booking :=
  { k with
    startDate := if truthyS b.startDate then ⟨b.startDate.getD ""⟩ else k.startDate,
    endDate := if truthyS b.endDate then ⟨b.endDate.getD ""⟩ else k.endDate,
    userId := if truthyS b.userId then b.userId.getD "" else k.userId,
    propertyId := if truthyS b.propertyId then b.propertyId.getD "" else k.propertyId }

def bookingsPutCore (idp : String) (b : BookingBody) (db1 db2 : Db) : RouteOut :=
  if !truthyS b.startDate && !truthyS b.endDate && !truthyS b.userId && !truthyS b.propertyId then
    ⟨400, .message "At least one field (startDate, endDate, userId, propertyId) is required", db1, 0⟩
  else
    match findBookingById db1 idp with
    | none => ⟨404, .message "Booking not found", db1, 1⟩
    | some _ =>
        match bookingUpdate db2 idp (bookingPutMerge b) with
        | .ok (k, db) => ⟨200, .booking k, db, 2⟩
        | .error _ => ⟨500, .message "Server error", db2, 2⟩

def bookingsPut (idp : String) (b : BookingBody) (db : Db) : RouteOut :=
  bookingsPutCore idp b db db

def bookingsDelete (idp : String) (db : Db) : RouteOut :=
  match bookingDelete db idp with
  | .ok (k, db2) =>
      ⟨200, .message ("Booking with ID " ++ k.id ++ " deleted successfully"), db2, 1⟩
  | .error .P2025 => ⟨404, .message "Booking not found", db, 1⟩

/-! #### Properties (routes/properties.js) -/

structure PropertyBody where
  title : Option String
  description : Option String
  location : Option String
  pricePerNight : Option ℚ
  bedroomCount : Option ℚ
  bathroomCount : Option ℚ
  maxGuestCount : Option ℚ
  rating : Option ℚ
  hostId : Option String
deriving DecidableEq

def propertyBodyAllTruthy (b : PropertyBody) : Bool :=
  truthyS b.title && truthyS b.description && truthyS b.location &&
  truthyQ b.pricePerNight && truthyQ b.bedroomCount && truthyQ b.bathroomCount &&
  truthyQ b.maxGuestCount && truthyQ b.rating && truthyS b.hostId

def propertyBodyAllFalsy (b : PropertyBody) : Bool :=
  !truthyS b.title && !truthyS b.description && !truthyS b.location &&
  !truthyQ b.pricePerNight && !truthyQ b.bedroomCount && !truthyQ b.bathroomCount &&
  !truthyQ b.maxGuestCount && !truthyQ b.rating && !truthyS b.hostId

def propertiesPost (freshId : String) (b : PropertyBody) (db : Db) : RouteOut :=
  if !propertyBodyAllTruthy b then
    ⟨400, .message "All fields are required", db, 0⟩
  else
    match findHostById db (b.hostId.getD "") with
    | none => ⟨404, .message "Host not found", db, 1⟩
    | some _ =>
        let newProperty : Property :=
          { id := freshId, title := b.title.getD "", description := b.description.getD "",
            location := b.location.getD "", pricePerNight := b.pricePerNight.getD 0,
            bedroomCount := b.bedroomCount.getD 0, bathroomCount := b.bathroomCount.getD 0,
            maxGuestCount := b.maxGuestCount.getD 0, rating := b.rating.getD 0,
            hostId := b.hostId.getD "" }
        ⟨201, .property newProperty, { db with properties := db.properties ++ [newProperty] }, 2⟩

def propertyPutMerge (b : PropertyBody) (p : Property) : Property :=
  { p with
    title := if truthyS b.title then b.title.getD "" else p.title,
    description := if truthyS b.description then b.description.getD "" else p.description,
    location := if truthyS b.location then b.location.getD "" else p.location,
    pricePerNight := if truthyQ b.pricePerNight then b.pricePerNight.getD 0 else p.pricePerNight,
    bedroomCount := if truthyQ b.bedroomCount then b.bedroomCount.getD 0 else p.bedroomCount,
    bathroomCount := if truthyQ b.bathroomCount then b.bathroomCount.getD 0 else p.bathroomCount,
    maxGuestCount := if truthyQ b.maxGuestCount then b.maxGuestCount.getD 0 else p.maxGuestCount,
    rating := if truthyQ b.rating then b.rating.getD 0 else p.rating,
    hostId := if truthyS b.hostId then b.hostId.getD "" else p.hostId }

def propertiesPutCore (idp : String) (b : PropertyBody) (db1 db2 : Db) : RouteOut :=
  if propertyBodyAllFalsy b then
    ⟨400, .message "At least one field (title, description, location, pricePerNight, bedroomCount, bathroomCount, maxGuestCount, rating, or hostId) is required", db1, 0⟩
  else
    match findPropertyById db1 idp with
    | none => ⟨404, .message "Property not found", db1, 1⟩
    | some _ =>
        match propertyUpdate db2 idp (propertyPutMerge b) with
        | .ok (p, db) => ⟨200, .property p, db, 2⟩
        | .error _ => ⟨500, .message "Server error", db2, 2⟩

def propertiesPut (idp : String) (b : PropertyBody) (db : Db) : RouteOut :=
  propertiesPutCore idp b db db

def propertiesDelete (idp : String) (db : Db) : RouteOut :=
  match propertyDelete db idp with
  | .ok (p, db2) =>
      ⟨200, .message ("Property " ++ p.title ++ " deleted successfully"), db2, 1⟩
  | .error .P2025 => ⟨404, .message "Property not found", db, 1⟩

/-! ### Middleware composition

`router.<verb>(path, verifyToken, handler)`: the middleware runs first;
on rejection it responds itself and the handler is never invoked (so the
store is untouched and `ops = 0`). -/

def protectedRoute (decodeWire : String → Token) (secret : String) (now : Nat)
    (authHeader : Option String) (handler : ReqUser → Db → RouteOut) (db : Db) : RouteOut :=
  match verifyToken decodeWire secret now authHeader with
  | .rejected st m => ⟨st, .message m, db, 0⟩
  | .authorized u => handler u db

/-! ### Concrete fixtures used by closed evaluations -/

def exSecret : String := "jwt-secret"

def exUser : User :=
  { id := "42", username := "jdoe", name := "John Doe", email := "jdoe@example.com",
    phoneNumber := "0612345678", profilePicture := none, password := "secret" }

def exDb : Db := ⟨[exUser], [], [], [], []⟩

/-- A concrete JWS wire codec: the string "tok42" parses as exactly the
token that logging `exUser` in at time 1000 issues; everything else is
malformed. -/
def exDecode : String → Token :=
  fun s => if s == "tok42" then .signed "42" "jdoe" 1000 26200 exSecret else .malformed

def exReview : Review := ⟨"r1", 4, some "nice", "p1", "u1"⟩

def exDbR : Db := ⟨[], [], [], [], [exReview]⟩

def exDbEmpty : Db := ⟨[], [], [], [], []⟩

/-! ### Helper lemmas -/

theorem splitOnSpace_no_space (l : List Char) (h : ' ' ∉ l) : splitOnSpace l = [l] := by
  induction l with
  | nil => rfl
  | cons c cs ih =>
      have hc : ¬ c = ' ' := fun hcc => h (hcc ▸ List.mem_cons_self c cs)
      have hcs : ' ' ∉ cs := fun hm => h (List.mem_cons_of_mem c hm)
      simp [splitOnSpace, ih hcs, hc]

theorem find?_filter_out_eq_none {α : Type} (l : List α) (f : α → String) (idp : String) :
    (l.filter (fun v => !(f v == idp))).find? (fun v => f v == idp) = none := by
  rw [List.find?_eq_none]
  intro x hx
  have := (List.mem_filter.mp hx).2
  simpa using this

/-! ### Claims -/

/-- C1: the spec promises that a PUT /users/:id carrying a valid token
whose subject IS the user `:id`, with at least one truthy field, updates
the user and returns 200.  The code cannot do this: login signs the
payload `{userId, username}`, but the route's ownership check reads
`req.user.id`, which is always undefined, so even the owner gets 403.
Concretely: user 42 logs in successfully, presents the very token the
login returned on PUT /users/42 with a truthy username field, and the
response is 403 with no update. -/
theorem usersPut_owner_login_token_403 :
    loginPost exSecret 1000 (some "jdoe") (some "secret") exDb
      = ⟨200, .token (.signed "42" "jdoe" 1000 26200 exSecret), exDb, 1⟩
  ∧ jwtVerify (exDecode "tok42") exSecret 2000
      = some ⟨none, some "42", some "jdoe"⟩
  ∧ protectedRoute exDecode exSecret 2000 (some "Bearer tok42")
      (fun requser db => usersPut "42" ⟨some "newname", none, none⟩ requser db) exDb
      = ⟨403, .message "You can only update your own account", exDb, 0⟩ := by
  refine ⟨by decide, by decide, by decide⟩

/-- C10: an Authorization header value containing no space character
yields the MissingCredential rejection for every wire codec, secret,
clock and handler: `split(" ")[1]` is undefined, so the token is treated
as absent and signature verification is never attempted. -/
theorem no_space_header_missing_credential (hdr : String) (h : ' ' ∉ hdr.data) :
    ∀ (decodeWire : String → Token) (secret : String) (now : Nat)
      (handler : ReqUser → Db → RouteOut) (db : Db),
      protectedRoute decodeWire secret now (some hdr) handler db
        = ⟨401, .message "No token provided, authorization denied", db, 0⟩ := by
  intro decodeWire secret now handler db
  have hx : extractBearer (some hdr) = none := by
    simp [extractBearer, jsSplitSpace, splitOnSpace_no_space hdr.data h]
  simp [protectedRoute, verifyToken, hx, verifyTokenAux]

/-- Witness for C10 at the concrete raw-token header "abc123". -/
theorem no_space_header_missing_credential_witness :
    protectedRoute (fun _ => Token.malformed) "s" 0 (some "abc123")
      (fun _ d => ⟨200, .message "reached", d, 5⟩) exDb
      = ⟨401, .message "No token provided, authorization denied", exDb, 0⟩ :=
  no_space_header_missing_credential "abc123" (by decide)
    (fun _ => Token.malformed) "s" 0 (fun _ d => ⟨200, .message "reached", d, 5⟩) exDb

/-- C4: the middleware rejects with 401 and never invokes the downstream
handler.  Absent (or falsy) extracted token: MissingCredential message;
present but unverifiable token: InvalidToken message; in both cases the
output does not depend on the handler, the store is returned unchanged
and zero store calls are issued.  Moreover a badly signed or expired
signed token, and a malformed token, never verify. -/
theorem auth_middleware_rejects (decodeWire : String → Token) (secret : String) (now : Nat) :
    (∀ hdr : Option String, extractBearer hdr = none ∨ extractBearer hdr = some "" →
       ∀ (handler : ReqUser → Db → RouteOut) (db : Db),
         protectedRoute decodeWire secret now hdr handler db
           = ⟨401, .message "No token provided, authorization denied", db, 0⟩)
  ∧ (∀ (hdr : Option String) (t : String), extractBearer hdr = some t → t ≠ "" →
       jwtVerify (decodeWire t) secret now = none →
       ∀ (handler : ReqUser → Db → RouteOut) (db : Db),
         protectedRoute decodeWire secret now hdr handler db
           = ⟨401, .message "Invalid or expired token", db, 0⟩)
  ∧ (∀ (uid uname : String) (iat expiry : Nat) (s : String),
       s ≠ secret ∨ expiry ≤ now →
       jwtVerify (.signed uid uname iat expiry s) secret now = none)
  ∧ jwtVerify Token.malformed secret now = none := by
  refine ⟨?_, ?_, ?_, rfl⟩
  · intro hdr h handler db
    rcases h with h | h <;> simp [protectedRoute, verifyToken, h, verifyTokenAux]
  · intro hdr t ht hne hv handler db
    simp [protectedRoute, verifyToken, ht, verifyTokenAux, hne, hv]
  · intro uid uname iat expiry s h
    rcases h with h | h
    · simp [jwtVerify, h]
    · have hnl : ¬ now < expiry := Nat.not_lt.mpr h
      simp [jwtVerify, hnl]

/-- Witness for C4: a missing header, a present-but-malformed token, and
an expired well-signed token, each at concrete inputs. -/
theorem auth_middleware_rejects_witness :
    protectedRoute exDecode exSecret 2000 none
      (fun _ d => ⟨200, .message "reached", d, 9⟩) exDb
      = ⟨401, .message "No token provided, authorization denied", exDb, 0⟩
  ∧ protectedRoute exDecode exSecret 2000 (some "Bearer garbage")
      (fun _ d => ⟨200, .message "reached", d, 9⟩) exDb
      = ⟨401, .message "Invalid or expired token", exDb, 0⟩
  ∧ jwtVerify (Token.signed "42" "jdoe" 1000 26200 exSecret) exSecret 26200 = none :=
  ⟨(auth_middleware_rejects exDecode exSecret 2000).1 none (Or.inl rfl)
      (fun _ d => ⟨200, .message "reached", d, 9⟩) exDb,
   (auth_middleware_rejects exDecode exSecret 2000).2.1 (some "Bearer garbage") "garbage"
      (by decide) (by decide) (by decide)
      (fun _ d => ⟨200, .message "reached", d, 9⟩) exDb,
   (auth_middleware_rejects exDecode exSecret 26200).2.2.1 "42" "jdoe" 1000 26200 exSecret
      (Or.inr (by decide))⟩

/-- C6: POST /login.  A falsy (absent or empty) username or password is
400; a username matching no stored user, or a stored user whose password
differs from the supplied one under exact string equality, is 401 with
the identical "Invalid credentials" message; an exact match is 200 with
a signed 7-hour token. -/
theorem login_behavior (secret : String) (now : Nat) (db : Db) :
    (∀ username password : Option String,
       truthyS username = false ∨ truthyS password = false →
       loginPost secret now username password db
         = ⟨400, .message "Username and password are required", db, 0⟩)
  ∧ (∀ uname pword : String, uname ≠ "" → pword ≠ "" →
       findUserByUsername db uname = none →
       loginPost secret now (some uname) (some pword) db
         = ⟨401, .message "Invalid credentials", db, 1⟩)
  ∧ (∀ (uname pword : String) (u : User), uname ≠ "" → pword ≠ "" →
       findUserByUsername db uname = some u → pword ≠ u.password →
       loginPost secret now (some uname) (some pword) db
         = ⟨401, .message "Invalid credentials", db, 1⟩)
  ∧ (∀ (uname pword : String) (u : User), uname ≠ "" → pword ≠ "" →
       findUserByUsername db uname = some u → pword = u.password →
       loginPost secret now (some uname) (some pword) db
         = ⟨200, .token (jwtSign u.id u.username secret now), db, 1⟩) := by
  refine ⟨?_, ?_, ?_, ?_⟩
  · intro username password h
    rcases h with h | h <;> simp [loginPost, h]
  · intro uname pword hu hp hf
    simp [loginPost, truthyS, hu, hp, hf]
  · intro uname pword u hu hp hf hne
    simp [loginPost, truthyS, hu, hp, hf, hne]
  · intro uname pword u hu hp hf he
    subst he
    simp [loginPost, truthyS, hu, hp, hf]

/-- Witness for C6: the spec's own scenario on the concrete store —
login as jdoe with the stored password "secret" succeeds with a token,
with "wrong" it is 401 Invalid credentials, and with a missing password
it is 400. -/
theorem login_behavior_witness :
    loginPost exSecret 1000 (some "jdoe") (some "secret") exDb
      = ⟨200, .token (jwtSign "42" "jdoe" exSecret 1000), exDb, 1⟩
  ∧ loginPost exSecret 1000 (some "jdoe") (some "wrong") exDb
      = ⟨401, .message "Invalid credentials", exDb, 1⟩
  ∧ loginPost exSecret 1000 (some "jdoe") none exDb
      = ⟨400, .message "Username and password are required", exDb, 0⟩ :=
  ⟨(login_behavior exSecret 1000 exDb).2.2.2 "jdoe" "secret" exUser
      (by decide) (by decide) (by decide) (by decide),
   (login_behavior exSecret 1000 exDb).2.2.1 "jdoe" "wrong" exUser
      (by decide) (by decide) (by decide) (by decide),
   (login_behavior exSecret 1000 exDb).1 (some "jdoe") none (Or.inr (by decide))⟩

/-- C8: logging in with the valid credentials of a stored user yields a
token issued at `now` that verification accepts at every instant
strictly before `now + 7h` and rejects at or after that instant. -/
theorem login_token_lifetime (db : Db) (u : User) (secret : String) (now : Nat)
    (hu : u.username ≠ "") (hp : u.password ≠ "")
    (hfind : findUserByUsername db u.username = some u) :
    loginPost secret now (some u.username) (some u.password) db
      = ⟨200, .token (jwtSign u.id u.username secret now), db, 1⟩
  ∧ ∀ t : Nat,
      (t < now + sevenHours →
        jwtVerify (jwtSign u.id u.username secret now) secret t
          = some ⟨none, some u.id, some u.username⟩)
    ∧ (now + sevenHours ≤ t →
        jwtVerify (jwtSign u.id u.username secret now) secret t = none) := by
  constructor
  · simp [loginPost, truthyS, hu, hp, hfind]
  · intro t
    constructor
    · intro hlt
      simp [jwtVerify, jwtSign, hlt]
    · intro hge
      have hnl : ¬ t < now + sevenHours := Nat.not_lt.mpr hge
      simp [jwtVerify, jwtSign, hnl]

/-- Witness for C8: jdoe's token issued at 1000 verifies at 26199
(one second before expiry) and is rejected at 26200 (= 1000 + 7h). -/
theorem login_token_lifetime_witness :
    loginPost exSecret 1000 (some "jdoe") (some "secret") exDb
      = ⟨200, .token (jwtSign "42" "jdoe" exSecret 1000), exDb, 1⟩
  ∧ jwtVerify (jwtSign "42" "jdoe" exSecret 1000) exSecret 26199
      = some ⟨none, some "42", some "jdoe"⟩
  ∧ jwtVerify (jwtSign "42" "jdoe" exSecret 1000) exSecret 26200 = none :=
  ⟨(login_token_lifetime exDb exUser exSecret 1000 (by decide) (by decide) (by decide)).1,
   ((login_token_lifetime exDb exUser exSecret 1000 (by decide) (by decide) (by decide)).2
      26199).1 (by decide),
   ((login_token_lifetime exDb exUser exSecret 1000 (by decide) (by decide) (by decide)).2
      26200).2 (by decide)⟩

/-- C2: self-scoped update/delete.  Whenever the decoded token's subject
identity differs from the path id, DELETE /users/:id responds 403 with
zero store calls and an unchanged store; PUT /users/:id responds 403
under the same conditions whenever at least one updatable field is
truthy (with a fully falsy payload field validation fires 400 first),
and in every case issues zero store calls, leaves the store unchanged
and never returns 200 — identity A can never mutate identity B. -/
theorem users_self_scope_forbidden (requser : ReqUser) (idp : String) (db : Db)
    (hmis : requser.id ≠ some idp) :
    (∀ b : UserPutBody,
        (usersPut idp b requser db).db = db
      ∧ (usersPut idp b requser db).ops = 0
      ∧ (usersPut idp b requser db).status ≠ 200
      ∧ ((truthyS b.username || truthyS b.email || truthyS b.password) = true →
          usersPut idp b requser db
            = ⟨403, .message "You can only update your own account", db, 0⟩))
  ∧ usersDelete idp requser db
      = ⟨403, .message "You can only delete your own account", db, 0⟩ := by
  have hid : (requser.id == some idp) = false := beq_eq_false_iff_ne.mpr hmis
  constructor
  · intro b
    by_cases hv : (!truthyS b.username && !truthyS b.email && !truthyS b.password) = true
    · have h400 : usersPut idp b requser db
          = ⟨400, .message "At least one field is required (username, email, or password)", db, 0⟩ := by
        simp [usersPut, usersPutCore, hv]
      refine ⟨by rw [h400], by rw [h400], by rw [h400]; simp, ?_⟩
      intro htr
      exfalso
      revert hv htr
      cases truthyS b.username <;> cases truthyS b.email <;> cases truthyS b.password <;> simp
    · have hv2 : (!truthyS b.username && !truthyS b.email && !truthyS b.password) = false := by
        simpa using hv
      have h403 : usersPut idp b requser db
          = ⟨403, .message "You can only update your own account", db, 0⟩ := by
        simp [usersPut, usersPutCore, hv2, hid]
      exact ⟨by rw [h403], by rw [h403], by rw [h403]; simp, fun _ => h403⟩
  · simp [usersDelete, hid]

/-- Witness for C2: token subject "7" on user "42", with a truthy
username field for the PUT. -/
theorem users_self_scope_forbidden_witness :
    usersPut "42" ⟨some "x", none, none⟩ ⟨some "7", some "7", some "amy"⟩ exDb
      = ⟨403, .message "You can only update your own account", exDb, 0⟩
  ∧ usersDelete "42" ⟨some "7", some "7", some "amy"⟩ exDb
      = ⟨403, .message "You can only delete your own account", exDb, 0⟩ :=
  ⟨((users_self_scope_forbidden ⟨some "7", some "7", some "amy"⟩ "42" exDb
      (by decide)).1 ⟨some "x", none, none⟩).2.2.2 (by decide),
   (users_self_scope_forbidden ⟨some "7", some "7", some "amy"⟩ "42" exDb (by decide)).2⟩

/-- C5: creates whose payload passes field validation but whose
referenced user / property / host does not resolve to a stored row are
rejected with a 404 naming the missing entity type, the store is
returned unchanged (the create is never issued), and only the failing
lookup(s) ran. -/
theorem create_reference_guard (db : Db) (freshId : String) :
    (∀ b : ReviewBody,
       truthyQ b.rating = true → truthyS b.comment = true →
       truthyS b.userId = true → truthyS b.propertyId = true →
       (findUserById db (b.userId.getD "") = none →
          reviewsPost freshId b db = ⟨404, .message "User not found", db, 1⟩)
     ∧ (∀ u : User, findUserById db (b.userId.getD "") = some u →
          findPropertyById db (b.propertyId.getD "") = none →
          reviewsPost freshId b db = ⟨404, .message "Property not found", db, 2⟩))
  ∧ (∀ b : BookingBody,
       truthyS b.startDate = true → truthyS b.endDate = true →
       truthyS b.userId = true → truthyS b.propertyId = true →
       (findUserById db (b.userId.getD "") = none →
          bookingsPost freshId b db = ⟨404, .message "User not found", db, 1⟩)
     ∧ (∀ u : User, findUserById db (b.userId.getD "") = some u →
          findPropertyById db (b.propertyId.getD "") = none →
          bookingsPost freshId b db = ⟨404, .message "Property not found", db, 2⟩))
  ∧ (∀ b : PropertyBody, propertyBodyAllTruthy b = true →
       findHostById db (b.hostId.getD "") = none →
       propertiesPost freshId b db = ⟨404, .message "Host not found", db, 1⟩) := by
  refine ⟨?_, ?_, ?_⟩
  · intro b h1 h2 h3 h4
    constructor
    · intro hu
      simp [reviewsPost, h1, h2, h3, h4, hu]
    · intro u hu hpr
      simp [reviewsPost, h1, h2, h3, h4, hu, hpr]
  · intro b h1 h2 h3 h4
    constructor
    · intro hu
      simp [bookingsPost, h1, h2, h3, h4, hu]
    · intro u hu hpr
      simp [bookingsPost, h1, h2, h3, h4, hu, hpr]
  · intro b hall hh
    simp [propertiesPost, hall, hh]

/-- Witness for C5: on a store holding only user 42, a review create
referencing a missing user 404s "User not found", a booking create
referencing user 42 and a missing property 404s "Property not found",
and a property create referencing a missing host 404s "Host not found",
each leaving the store unchanged. -/
theorem create_reference_guard_witness :
    reviewsPost "new1" ⟨some 5, some "great", some "u9", some "p1"⟩ exDb
      = ⟨404, .message "User not found", exDb, 1⟩
  ∧ bookingsPost "new2" ⟨some "2024-01-01", some "2024-01-05", some "42", some "p1"⟩ exDb
      = ⟨404, .message "Property not found", exDb, 2⟩
  ∧ propertiesPost "new3"
      ⟨some "Villa", some "Nice villa", some "Malibu", some 310, some 3, some 2, some 6,
        some 5, some "h1"⟩ exDb
      = ⟨404, .message "Host not found", exDb, 1⟩ :=
  ⟨((create_reference_guard exDb "new1").1 ⟨some 5, some "great", some "u9", some "p1"⟩
      (by decide) (by decide) (by decide) (by decide)).1 (by decide),
   ((create_reference_guard exDb "new2").2.1
      ⟨some "2024-01-01", some "2024-01-05", some "42", some "p1"⟩
      (by decide) (by decide) (by decide) (by decide)).2 exUser (by decide) (by decide),
   (create_reference_guard exDb "new3").2.2
      ⟨some "Villa", some "Nice villa", some "Malibu", some 310, some 3, some 2, some 6,
        some 5, some "h1"⟩ (by decide) (by decide)⟩

/-- C9: for review and booking creation the user-existence lookup runs
before the property-existence lookup, so when both referenced rows are
absent the response is 404 "User not found" and exactly one lookup was
issued — the property check is never reached. -/
theorem create_checks_user_before_property (db : Db) (freshId : String) :
    (∀ b : ReviewBody,
       truthyQ b.rating = true → truthyS b.comment = true →
       truthyS b.userId = true → truthyS b.propertyId = true →
       findUserById db (b.userId.getD "") = none →
       findPropertyById db (b.propertyId.getD "") = none →
       reviewsPost freshId b db = ⟨404, .message "User not found", db, 1⟩)
  ∧ (∀ b : BookingBody,
       truthyS b.startDate = true → truthyS b.endDate = true →
       truthyS b.userId = true → truthyS b.propertyId = true →
       findUserById db (b.userId.getD "") = none →
       findPropertyById db (b.propertyId.getD "") = none →
       bookingsPost freshId b db = ⟨404, .message "User not found", db, 1⟩) := by
  constructor
  · intro b h1 h2 h3 h4 hu _
    simp [reviewsPost, h1, h2, h3, h4, hu]
  · intro b h1 h2 h3 h4 hu _
    simp [bookingsPost, h1, h2, h3, h4, hu]

/-- Witness for C9 on the empty store, where neither the referenced user
nor the referenced property exists. -/
theorem create_checks_user_before_property_witness :
    reviewsPost "new1" ⟨some 5, some "great", some "u9", some "p9"⟩ exDbEmpty
      = ⟨404, .message "User not found", exDbEmpty, 1⟩
  ∧ bookingsPost "new2" ⟨some "2024-01-01", some "2024-01-05", some "u9", some "p9"⟩ exDbEmpty
      = ⟨404, .message "User not found", exDbEmpty, 1⟩ :=
  ⟨(create_checks_user_before_property exDbEmpty "new1").1
      ⟨some 5, some "great", some "u9", some "p9"⟩
      (by decide) (by decide) (by decide) (by decide) (by decide) (by decide),
   (create_checks_user_before_property exDbEmpty "new2").2
      ⟨some "2024-01-01", some "2024-01-05", some "u9", some "p9"⟩
      (by decide) (by decide) (by decide) (by decide) (by decide) (by decide)⟩

/-- C3 counterexample: the claim says a store-level "row not found" at
mutation time during an UPDATE is also mapped to 404.  It is not: the
update handlers have no P2025 branch in their catch block.  Concretely,
review "r1" exists at check time, is gone at mutation time (the
check-then-act race), the update raises P2025, and the handler responds
500 "Server error", not 404. -/
theorem reviewsPut_race_500_counterexample :
    findReviewById exDbR "r1" = some exReview
  ∧ reviewUpdate exDbEmpty "r1" (reviewPutMerge ⟨some 5, none, none, none⟩)
      = .error .P2025
  ∧ reviewsPutCore "r1" ⟨some 5, none, none, none⟩ exDbR exDbEmpty
      = ⟨500, .message "Server error", exDbEmpty, 2⟩
  ∧ (500 : Nat) ≠ 404 := by
  refine ⟨by decide, by rfl, by decide, by decide⟩

/-- C3 amended: for every DELETE of a user, review, booking or property,
a store-level "row not found" at mutation time is mapped to 404, and
deleting the same existing resource twice yields 200 then 404, never two
200s; for every UPDATE, however, a mutation-time "row not found" (after
a successful existence check, i.e. the check-then-act race) is surfaced
as a generic 500 — updates produce 404 only via their pre-mutation
existence check. -/
theorem row_not_found_delete_vs_update :
    (∀ (db : Db) (idp : String) (requser : ReqUser), requser.id = some idp →
       findUserById db idp = none →
       usersDelete idp requser db = ⟨404, .message "User not found", db, 1⟩)
  ∧ (∀ (db : Db) (idp : String), findReviewById db idp = none →
       reviewsDelete idp db = ⟨404, .message "Review not found", db, 1⟩)
  ∧ (∀ (db : Db) (idp : String), findBookingById db idp = none →
       bookingsDelete idp db = ⟨404, .message "Booking not found", db, 1⟩)
  ∧ (∀ (db : Db) (idp : String), findPropertyById db idp = none →
       propertiesDelete idp db = ⟨404, .message "Property not found", db, 1⟩)
  ∧ (∀ (db : Db) (idp : String) (requser : ReqUser) (u : User), requser.id = some idp →
       findUserById db idp = some u →
       (usersDelete idp requser db).status = 200
     ∧ (usersDelete idp requser (usersDelete idp requser db).db).status = 404)
  ∧ (∀ (db : Db) (idp : String) (r : Review), findReviewById db idp = some r →
       (reviewsDelete idp db).status = 200
     ∧ (reviewsDelete idp (reviewsDelete idp db).db).status = 404)
  ∧ (∀ (db : Db) (idp : String) (k : Booking), findBookingById db idp = some k →
       (bookingsDelete idp db).status = 200
     ∧ (bookingsDelete idp (bookingsDelete idp db).db).status = 404)
  ∧ (∀ (db : Db) (idp : String) (p : Property), findPropertyById db idp = some p →
       (propertiesDelete idp db).status = 200
     ∧ (propertiesDelete idp (propertiesDelete idp db).db).status = 404)
  ∧ (∀ (idp : String) (b : UserPutBody) (requser : ReqUser) (db1 db2 : Db) (u : User),
       requser.id = some idp →
       (truthyS b.username || truthyS b.email || truthyS b.password) = true →
       findUserById db1 idp = some u → findUserById db2 idp = none →
       usersPutCore idp b requser db1 db2 = ⟨500, .message "Server error", db2, 2⟩)
  ∧ (∀ (idp : String) (b : ReviewBody) (db1 db2 : Db) (r : Review),
       (truthyQ b.rating || truthyS b.comment || truthyS b.userId || truthyS b.propertyId)
         = true →
       findReviewById db1 idp = some r → findReviewById db2 idp = none →
       reviewsPutCore idp b db1 db2 = ⟨500, .message "Server error", db2, 2⟩)
  ∧ (∀ (idp : String) (b : BookingBody) (db1 db2 : Db) (k : Booking),
       (truthyS b.startDate || truthyS b.endDate || truthyS b.userId || truthyS b.propertyId)
         = true →
       findBookingById db1 idp = some k → findBookingById db2 idp = none →
       bookingsPutCore idp b db1 db2 = ⟨500, .message "Server error", db2, 2⟩)
  ∧ (∀ (idp : String) (b : PropertyBody) (db1 db2 : Db) (p : Property),
       propertyBodyAllFalsy b = false →
       findPropertyById db1 idp = some p → findPropertyById db2 idp = none →
       propertiesPutCore idp b db1 db2 = ⟨500, .message "Server error", db2, 2⟩) := by
  refine ⟨?_, ?_, ?_, ?_, ?_, ?_, ?_, ?_, ?_, ?_, ?_, ?_⟩
  · intro db idp requser hreq hf
    have hid : (requser.id == some idp) = true := by simp [hreq]
    simp [usersDelete, userDelete, hf, hid]
  · intro db idp hf
    simp [reviewsDelete, reviewDelete, hf]
  · intro db idp hf
    simp [bookingsDelete, bookingDelete, hf]
  · intro db idp hf
    simp [propertiesDelete, propertyDelete, hf]
  · intro db idp requser u hreq hf
    have hid : (requser.id == some idp) = true := by simp [hreq]
    constructor
    · simp [usersDelete, userDelete, hf, hid]
    · have hdb : (usersDelete idp requser db).db
          = { db with users := db.users.filter (fun v => !(v.id == idp)) } := by
        simp [usersDelete, userDelete, hf, hid]
      rw [hdb]
      have hnone :
          findUserById { db with users := db.users.filter (fun v => !(v.id == idp)) } idp
            = none := by
        simp only [findUserById]
        exact find?_filter_out_eq_none db.users (fun w => w.id) idp
      simp [usersDelete, userDelete, hnone, hid]
  · intro db idp r hf
    constructor
    · simp [reviewsDelete, reviewDelete, hf]
    · have hdb : (reviewsDelete idp db).db
          = { db with reviews := db.reviews.filter (fun v => !(v.id == idp)) } := by
        simp [reviewsDelete, reviewDelete, hf]
      rw [hdb]
      have hnone :
          findReviewById { db with reviews := db.reviews.filter (fun v => !(v.id == idp)) } idp
            = none := by
        simp only [findReviewById]
        exact find?_filter_out_eq_none db.reviews (fun w => w.id) idp
      simp [reviewsDelete, reviewDelete, hnone]
  · intro db idp k hf
    constructor
    · simp [bookingsDelete, bookingDelete, hf]
    · have hdb : (bookingsDelete idp db).db
          = { db with bookings := db.bookings.filter (fun v => !(v.id == idp)) } := by
        simp [bookingsDelete, bookingDelete, hf]
      rw [hdb]
      have hnone :
          findBookingById { db with bookings := db.bookings.filter (fun v => !(v.id == idp)) } idp
            = none := by
        simp only [findBookingById]
        exact find?_filter_out_eq_none db.bookings (fun w => w.id) idp
      simp [bookingsDelete, bookingDelete, hnone]
  · intro db idp p hf
    constructor
    · simp [propertiesDelete, propertyDelete, hf]
    · have hdb : (propertiesDelete idp db).db
          = { db with properties := db.properties.filter (fun v => !(v.id == idp)) } := by
        simp [propertiesDelete, propertyDelete, hf]
      rw [hdb]
      have hnone :
          findPropertyById
              { db with properties := db.properties.filter (fun v => !(v.id == idp)) } idp
            = none := by
        simp only [findPropertyById]
        exact find?_filter_out_eq_none db.properties (fun w => w.id) idp
      simp [propertiesDelete, propertyDelete, hnone]
  · intro idp b requser db1 db2 u hreq htr hf1 hf2
    have hid : (requser.id == some idp) = true := by simp [hreq]
    have hv : (!truthyS b.username && !truthyS b.email && !truthyS b.password) = false := by
      revert htr
      cases truthyS b.username <;> cases truthyS b.email <;> cases truthyS b.password <;> simp
    simp [usersPutCore, hv, hid, hf1, userUpdate, hf2]
  · intro idp b db1 db2 r htr hf1 hf2
    have hv : (!truthyQ b.rating && !truthyS b.comment && !truthyS b.userId
        && !truthyS b.propertyId) = false := by
      revert htr
      cases truthyQ b.rating <;> cases truthyS b.comment <;> cases truthyS b.userId <;>
        cases truthyS b.propertyId <;> simp
    simp [reviewsPutCore, hv, hf1, reviewUpdate, hf2]
  · intro idp b db1 db2 k htr hf1 hf2
    have hv : (!truthyS b.startDate && !truthyS b.endDate && !truthyS b.userId
        && !truthyS b.propertyId) = false := by
      revert htr
      cases truthyS b.startDate <;> cases truthyS b.endDate <;> cases truthyS b.userId <;>
        cases truthyS b.propertyId <;> simp
    simp [bookingsPutCore, hv, hf1, bookingUpdate, hf2]
  · intro idp b db1 db2 p hv hf1 hf2
    simp [propertiesPutCore, hv, hf1, propertyUpdate, hf2]

/-- Witness for the amended C3: deleting review "r1" twice yields 200
then 404; the raced review update yields 500; deleting an absent user
yields 404. -/
theorem row_not_found_delete_vs_update_witness :
    (reviewsDelete "r1" exDbR).status = 200
  ∧ (reviewsDelete "r1" (reviewsDelete "r1" exDbR).db).status = 404
  ∧ reviewsPutCore "r1" ⟨some 5, none, none, none⟩ exDbR exDbEmpty
      = ⟨500, .message "Server error", exDbEmpty, 2⟩
  ∧ usersDelete "42" ⟨some "42", some "42", some "jdoe"⟩ exDbEmpty
      = ⟨404, .message "User not found", exDbEmpty, 1⟩ :=
  ⟨(row_not_found_delete_vs_update.2.2.2.2.2.1 exDbR "r1" exReview (by decide)).1,
   (row_not_found_delete_vs_update.2.2.2.2.2.1 exDbR "r1" exReview (by decide)).2,
   row_not_found_delete_vs_update.2.2.2.2.2.2.2.2.2.1 "r1" ⟨some 5, none, none, none⟩
     exDbR exDbEmpty exReview (by decide) (by decide) (by decide),
   row_not_found_delete_vs_update.1 exDbEmpty "42" ⟨some "42", some "42", some "jdoe"⟩
     rfl (by decide)⟩

/-- C7: partial updates of a user, review, booking or property.  A
payload with no truthy updatable field fails with 400 before any store
lookup (zero store calls, store unchanged); otherwise, when the row
exists (and, for users, the ownership check passes), the row is replaced
by its merge with the payload, in which exactly the truthy payload
fields are applied and every other field of the row — and every row with
a different id — is unchanged; the per-field merge equations make the
frame condition explicit. -/
theorem partial_update_semantics :
    (∀ (idp : String) (b : UserPutBody) (requser : ReqUser) (db : Db),
       (truthyS b.username = false ∧ truthyS b.email = false ∧ truthyS b.password = false →
          usersPut idp b requser db
            = ⟨400, .message "At least one field is required (username, email, or password)",
                db, 0⟩)
     ∧ (∀ u : User, requser.id = some idp → findUserById db idp = some u →
          (truthyS b.username || truthyS b.email || truthyS b.password) = true →
          usersPut idp b requser db
            = ⟨200, .user (userPutMerge b u).withoutPassword,
                { db with users := db.users.map (fun v => if v.id == idp then userPutMerge b v else v) },
                2⟩))
  ∧ (∀ (b : UserPutBody) (u : User),
       (userPutMerge b u).id = u.id
     ∧ (userPutMerge b u).name = u.name
     ∧ (userPutMerge b u).phoneNumber = u.phoneNumber
     ∧ (userPutMerge b u).profilePicture = u.profilePicture
     ∧ (userPutMerge b u).username
         = (if truthyS b.username then b.username.getD "" else u.username)
     ∧ (userPutMerge b u).email = (if truthyS b.email then b.email.getD "" else u.email)
     ∧ (userPutMerge b u).password
         = (if truthyS b.password then b.password.getD "" else u.password))
  ∧ (∀ (idp : String) (b : ReviewBody) (db : Db),
       (truthyQ b.rating = false ∧ truthyS b.comment = false ∧ truthyS b.userId = false
          ∧ truthyS b.propertyId = false →
          reviewsPut idp b db
            = ⟨400, .message "At least one field (rating, comment, userId, propertyId) is required",
                db, 0⟩)
     ∧ (∀ r : Review, findReviewById db idp = some r →
          (truthyQ b.rating || truthyS b.comment || truthyS b.userId || truthyS b.propertyId)
            = true →
          reviewsPut idp b db
            = ⟨200, .review (reviewPutMerge b r),
                { db with reviews := db.reviews.map (fun v => if v.id == idp then reviewPutMerge b v else v) },
                2⟩))
  ∧ (∀ (b : ReviewBody) (r : Review),
       (reviewPutMerge b r).id = r.id
     ∧ (reviewPutMerge b r).rating = (if truthyQ b.rating then b.rating.getD 0 else r.rating)
     ∧ (reviewPutMerge b r).comment = (if truthyS b.comment then b.comment else r.comment)
     ∧ (reviewPutMerge b r).userId = (if truthyS b.userId then b.userId.getD "" else r.userId)
     ∧ (reviewPutMerge b r).propertyId
         = (if truthyS b.propertyId then b.propertyId.getD "" else r.propertyId))
  ∧ (∀ (idp : String) (b : BookingBody) (db : Db),
       (truthyS b.startDate = false ∧ truthyS b.endDate = false ∧ truthyS b.userId = false
          ∧ truthyS b.propertyId = false →
          bookingsPut idp b db
            = ⟨400, .message "At least one field (startDate, endDate, userId, propertyId) is required",
                db, 0⟩)
     ∧ (∀ k : Booking, findBookingById db idp = some k →
          (truthyS b.startDate || truthyS b.endDate || truthyS b.userId || truthyS b.propertyId)
            = true →
          bookingsPut idp b db
            = ⟨200, .booking (bookingPutMerge b k),
                { db with bookings := db.bookings.map (fun v => if v.id == idp then bookingPutMerge b v else v) },
                2⟩))
  ∧ (∀ (b : BookingBody) (k : Booking),
       (bookingPutMerge b k).id = k.id
     ∧ (bookingPutMerge b k).startDate
         = (if truthyS b.startDate then ⟨b.startDate.getD ""⟩ else k.startDate)
     ∧ (bookingPutMerge b k).endDate
         = (if truthyS b.endDate then ⟨b.endDate.getD ""⟩ else k.endDate)
     ∧ (bookingPutMerge b k).userId = (if truthyS b.userId then b.userId.getD "" else k.userId)
     ∧ (bookingPutMerge b k).propertyId
         = (if truthyS b.propertyId then b.propertyId.getD "" else k.propertyId))
  ∧ (∀ (idp : String) (b : PropertyBody) (db : Db),
       (propertyBodyAllFalsy b = true →
          propertiesPut idp b db
            = ⟨400, .message "At least one field (title, description, location, pricePerNight, bedroomCount, bathroomCount, maxGuestCount, rating, or hostId) is required",
                db, 0⟩)
     ∧ (∀ p : Property, findPropertyById db idp = some p →
          propertyBodyAllFalsy b = false →
          propertiesPut idp b db
            = ⟨200, .property (propertyPutMerge b p),
                { db with properties := db.properties.map (fun v => if v.id == idp then propertyPutMerge b v else v) },
                2⟩))
  ∧ (∀ (b : PropertyBody) (p : Property),
       (propertyPutMerge b p).id = p.id
     ∧ (propertyPutMerge b p).title = (if truthyS b.title then b.title.getD "" else p.title)
     ∧ (propertyPutMerge b p).description
         = (if truthyS b.description then b.description.getD "" else p.description)
     ∧ (propertyPutMerge b p).location
         = (if truthyS b.location then b.location.getD "" else p.location)
     ∧ (propertyPutMerge b p).pricePerNight
         = (if truthyQ b.pricePerNight then b.pricePerNight.getD 0 else p.pricePerNight)
     ∧ (propertyPutMerge b p).bedroomCount
         = (if truthyQ b.bedroomCount then b.bedroomCount.getD 0 else p.bedroomCount)
     ∧ (propertyPutMerge b p).bathroomCount
         = (if truthyQ b.bathroomCount then b.bathroomCount.getD 0 else p.bathroomCount)
     ∧ (propertyPutMerge b p).maxGuestCount
         = (if truthyQ b.maxGuestCount then b.maxGuestCount.getD 0 else p.maxGuestCount)
     ∧ (propertyPutMerge b p).rating = (if truthyQ b.rating then b.rating.getD 0 else p.rating)
     ∧ (propertyPutMerge b p).hostId
         = (if truthyS b.hostId then b.hostId.getD "" else p.hostId)) := by
  refine ⟨?_, ?_, ?_, ?_, ?_, ?_, ?_, ?_⟩
  · intro idp b requser db
    constructor
    · intro h
      obtain ⟨h1, h2, h3⟩ := h
      simp [usersPut, usersPutCore, h1, h2, h3]
    · intro u hreq hfind htr
      have hid : (requser.id == some idp) = true := by simp [hreq]
      have hv : (!truthyS b.username && !truthyS b.email && !truthyS b.password) = false := by
        revert htr
        cases truthyS b.username <;> cases truthyS b.email <;> cases truthyS b.password <;> simp
      simp [usersPut, usersPutCore, hv, hid, hfind, userUpdate]
  · intro b u
    exact ⟨rfl, rfl, rfl, rfl, rfl, rfl, rfl⟩
  · intro idp b db
    constructor
    · intro h
      obtain ⟨h1, h2, h3, h4⟩ := h
      simp [reviewsPut, reviewsPutCore, h1, h2, h3, h4]
    · intro r hfind htr
      have hv : (!truthyQ b.rating && !truthyS b.comment && !truthyS b.userId
          && !truthyS b.propertyId) = false := by
        revert htr
        cases truthyQ b.rating <;> cases truthyS b.comment <;> cases truthyS b.userId <;>
          cases truthyS b.propertyId <;> simp
      simp [reviewsPut, reviewsPutCore, hv, hfind, reviewUpdate]
  · intro b r
    exact ⟨rfl, rfl, rfl, rfl, rfl⟩
  · intro idp b db
    constructor
    · intro h
      obtain ⟨h1, h2, h3, h4⟩ := h
      simp [bookingsPut, bookingsPutCore, h1, h2, h3, h4]
    · intro k hfind htr
      have hv : (!truthyS b.startDate && !truthyS b.endDate && !truthyS b.userId
          && !truthyS b.propertyId) = false := by
        revert htr
        cases truthyS b.startDate <;> cases truthyS b.endDate <;> cases truthyS b.userId <;>
          cases truthyS b.propertyId <;> simp
      simp [bookingsPut, bookingsPutCore, hv, hfind, bookingUpdate]
  · intro b k
    exact ⟨rfl, rfl, rfl, rfl, rfl⟩
  · intro idp b db
    constructor
    · intro h
      simp [propertiesPut, propertiesPutCore, h]
    · intro p hfind hv
      simp [propertiesPut, propertiesPutCore, hv, hfind, propertyUpdate]
  · intro b p
    exact ⟨rfl, rfl, rfl, rfl, rfl, rfl, rfl, rfl, rfl, rfl⟩

/-- Witness for C7: a users update whose two supplied fields are falsy
(absent username/password, empty email) fails 400 with zero store calls;
a reviews update carrying only a truthy rating applies exactly that
field to the stored review. -/
theorem partial_update_semantics_witness :
    usersPut "42" ⟨none, some "", none⟩ ⟨some "42", some "42", some "jdoe"⟩ exDb
      = ⟨400, .message "At least one field is required (username, email, or password)", exDb, 0⟩
  ∧ reviewsPut "r1" ⟨some 5, none, none, none⟩ exDbR
      = ⟨200, .review ⟨"r1", 5, some "nice", "p1", "u1"⟩,
          ⟨[], [], [], [], [⟨"r1", 5, some "nice", "p1", "u1"⟩]⟩, 2⟩ :=
  ⟨(partial_update_semantics.1 "42" ⟨none, some "", none⟩
      ⟨some "42", some "42", some "jdoe"⟩ exDb).1 ⟨by decide, by decide, by decide⟩,
   (partial_update_semantics.2.2.1 "r1" ⟨some 5, none, none, none⟩ exDbR).2 exReview
      (by decide) (by decide)⟩

end BedBnb
